import Mathlib

/-!
Verification of the protocol-fitness data/analytics core.

The TypeScript source is shallowly embedded: JS numbers are modelled as `ℚ`
(integers as `Int`/`Nat` where the code only ever produces integers), JS
`Date` objects as a record of a calendar-day offset from 2024-01-01 plus
wall-clock components, the JS remainder operator `%` as `Int.tmod`
(truncated, sign of the dividend), `Math.floor` of an exact division as
`Int.fdiv`, `Math.round` as floor of `x + 1/2`, array index lookup that can
yield `undefined` as an `Option`-valued lookup, and the localStorage-backed
collections as explicit lists passed in and returned.
-/

namespace Protocol

/-! ## Data model (src/types/index.ts, templates, mealTemplates) -/

/-- WorkoutType from types/index.ts. -/
inductive WorkoutType where
  | Push
  | Pull
  | Legs
  | Rest
deriving DecidableEq

/-- WORKOUT_ROTATION from types/index.ts: the 4-element array
`['Push', 'Pull', 'Legs', 'Rest']` (its source comment says "4-day cycle"). -/
def WORKOUT_ROTATION : List WorkoutType := [.Push, .Pull, .Legs, .Rest]

/-- WEEKLY_ROTATION from the workout-templates module: the 7-element array
`['Push','Pull','Legs','Push','Pull','Legs','Rest']` documented as the 7-day
cycle. Note it is not the table `getWorkoutTypeForDate` indexes into. -/
def WEEKLY_ROTATION : List WorkoutType :=
  [.Push, .Pull, .Legs, .Push, .Pull, .Legs, .Rest]

/-- Exercise from types/index.ts. -/
structure Exercise where
  id : String
  name : String
  sets : Int
  reps : Int
  weight : ℚ
deriving DecidableEq

/-- WorkoutEntry (legacy) from types/index.ts. -/
structure WorkoutEntry where
  id : String
  date : String
  type : WorkoutType
  exercises : List Exercise
  createdAt : String
deriving DecidableEq

/-- NutritionEntry (legacy) from types/index.ts. -/
structure NutritionEntry where
  id : String
  date : String
  eggs : ℚ
  chickenGrams : ℚ
  paneerGrams : ℚ
  soyaGrams : ℚ
  wheyScoops : ℚ
  createdAt : String
deriving DecidableEq

/-- NutritionSettings from types/index.ts. -/
structure NutritionSettings where
  dailyProteinTarget : Int
deriving DecidableEq

/-- DEFAULT_NUTRITION_SETTINGS from types/index.ts. -/
def DEFAULT_NUTRITION_SETTINGS : NutritionSettings := { dailyProteinTarget := 180 }

/-- WeightEntry from types/index.ts. -/
structure WeightEntry where
  id : String
  date : String
  weight : ℚ
  createdAt : String
deriving DecidableEq

/-- AppData from types/index.ts (the legacy container document). -/
structure AppData where
  workouts : List WorkoutEntry
  nutrition : List NutritionEntry
  weights : List WeightEntry
  nutritionSettings : NutritionSettings
deriving DecidableEq

/-- PROTEIN_VALUES from types/index.ts (per-unit protein factors). -/
structure ProteinValues where
  egg : ℚ
  chicken : ℚ
  paneer : ℚ
  soya : ℚ
  whey : ℚ

/-- The fixed constants: egg 6 g/egg, chicken 31 g/100g, paneer 18 g/100g,
soya 52 g/100g dry, whey 24 g/scoop. -/
def PROTEIN_VALUES : ProteinValues :=
  { egg := 6, chicken := 31, paneer := 18, soya := 52, whey := 24 }

/-- SetLog from the workout-templates module. -/
structure SetLog where
  reps : Int
  weight : ℚ
deriving DecidableEq

/-- ExerciseLog from the workout-templates module. -/
structure ExerciseLog where
  exerciseId : String
  name : String
  sets : List SetLog
deriving DecidableEq

/-- WorkoutLog (template-based) from the workout-templates module. -/
structure WorkoutLog where
  id : String
  date : String
  type : WorkoutType
  exercises : List ExerciseLog
  createdAt : String
deriving DecidableEq

/-- MealCategory from types/mealTemplates.ts. -/
inductive MealCategory where
  | Breakfast
  | Lunch
  | Dinner
  | Snack
deriving DecidableEq

/-- Macros from types/mealTemplates.ts. -/
structure Macros where
  protein : ℚ
  carbs : ℚ
  fat : ℚ
  fiber : ℚ
  calories : ℚ
deriving DecidableEq

/-- MealLogEntry from types/mealTemplates.ts. -/
structure MealLogEntry where
  id : String
  date : String
  templateId : String
  templateName : String
  category : MealCategory
  macros : Macros
  loggedAt : String
deriving DecidableEq

/-- NutritionTargets from types/mealTemplates.ts. -/
structure NutritionTargets where
  protein : Int
  calories : Int
deriving DecidableEq

/-- DEFAULT_NUTRITION_TARGETS from types/mealTemplates.ts. -/
def DEFAULT_NUTRITION_TARGETS : NutritionTargets := { protein := 180, calories := 2300 }

/-- calculateTotalMacros from types/mealTemplates.ts: a left fold over the
logs starting from the all-zero Macros record, adding the five fields of
each entry's macros snapshot elementwise. -/
def calculateTotalMacros (logs : List MealLogEntry) : Macros :=
  logs.foldl
    (fun total log =>
      { protein := total.protein + log.macros.protein
        carbs := total.carbs + log.macros.carbs
        fat := total.fat + log.macros.fat
        fiber := total.fiber + log.macros.fiber
        calories := total.calories + log.macros.calories })
    { protein := 0, carbs := 0, fat := 0, fiber := 0, calories := 0 }

/-! ## Date model and the rotation schedule (calculations module) -/

/-- A JS `Date` in the local timezone (taken as UTC in this embedding):
`day` is the calendar-day offset from the reference date 2024-01-01, the
other fields are the wall-clock components that `setHours(0,0,0,0)`
zeroes. -/
structure JSDate where
  day : Int
  hours : Int
  minutes : Int
  seconds : Int
  ms : Int
deriving DecidableEq

/-- The mutation performed by `date.setHours(0, 0, 0, 0)`: the wall-clock
components are zeroed, the calendar day is unchanged. -/
def JSDate.setHoursZero (d : JSDate) : JSDate :=
  { d with hours := 0, minutes := 0, seconds := 0, ms := 0 }

/-- Milliseconds per day, written `1000 * 60 * 60 * 24` in the source. -/
def msPerDay : Int := 1000 * 60 * 60 * 24

/-- `date.getTime()`: epoch milliseconds, with the epoch placed at the
reference date 2024-01-01 (a constant shift that cancels in every
difference the source takes). -/
def JSDate.getTime (d : JSDate) : Int :=
  d.day * msPerDay + d.hours * 3600000 + d.minutes * 60000 + d.seconds * 1000 + d.ms

/-- `new Date('2024-01-01')`: midnight at the reference date. -/
def referenceDate : JSDate := { day := 0, hours := 0, minutes := 0, seconds := 0, ms := 0 }

/-- `d.addDays n`: the date n calendar days later (used to state
"d + 7 days"). -/
def JSDate.addDays (d : JSDate) (n : Int) : JSDate := { d with day := d.day + n }

/-- getWorkoutTypeForDate from the calculations module, including its two
observable effects: the returned rotation value and the mutated argument.
The source mutates `date` via `setHours(0,0,0,0)`, computes
`diffDays = Math.floor((date.getTime() - referenceDate.getTime()) / msPerDay)`,
takes `rotationIndex = ((diffDays % 7) + 7) % 7` with the JS truncated
remainder (`Int.tmod`), and returns `WORKOUT_ROTATION[rotationIndex]` — an
array access that yields `undefined` (here `none`) when the index is out of
range of the 4-element array. -/
def getWorkoutTypeForDate (date : JSDate) : Option WorkoutType × JSDate :=
  let date := date.setHoursZero
  let diffTime := date.getTime - referenceDate.getTime
  let diffDays := Int.fdiv diffTime msPerDay
  let rotationIndex := ((diffDays.tmod 7) + 7).tmod 7
  (WORKOUT_ROTATION[rotationIndex.toNat]?, date)

/-! ## Persistence operations (storage module), as pure list transforms

The localStorage-backed collection is made explicit: each operation takes the
currently stored list and returns the list that the source persists back. -/

/-- saveWorkoutLog from the storage module: `findIndex` on the
`(date, type)` key, replace at that index if found (`logs[existingIndex] =
log`), else push. -/
def saveWorkoutLog (logs : List WorkoutLog) (log : WorkoutLog) : List WorkoutLog :=
  match logs.findIdx? (fun l => decide (l.date = log.date) && decide (l.type = log.type)) with
  | some i => logs.set i log
  | none => logs ++ [log]

/-- Recursive reformulation of the find-and-replace-else-append upsert, proved
equal to `saveWorkoutLog` below and used to reason by induction. -/
def upsertByDateType : List WorkoutLog → WorkoutLog → List WorkoutLog
  | [], log => [log]
  | l :: ls, log =>
    if l.date = log.date ∧ l.type = log.type then log :: ls
    else l :: upsertByDateType ls log

/-- Number of stored records carrying a given (date, type) key. -/
def keyCount (logs : List WorkoutLog) (date : String) (ty : WorkoutType) : Nat :=
  (logs.filter (fun l => decide (l.date = date ∧ l.type = ty))).length

/-- deleteMealLog from the storage module: `logs.filter(l => l.id !== logId)` —
note this keeps every record whose id differs, i.e. removes all matches. -/
def deleteMealLog (logs : List MealLogEntry) (logId : String) : List MealLogEntry :=
  logs.filter (fun l => l.id != logId)

/-- The behaviour the spec describes for deleteById ("removes first record
with matching id, persists remainder"), stated as its own definition so it can
be compared with the implementation. -/
def deleteFirstById : List MealLogEntry → String → List MealLogEntry
  | [], _ => []
  | l :: ls, logId => if l.id = logId then ls else l :: deleteFirstById ls logId

/-! ## Streak calculation (storage module) -/

/-- The loop body of calculateStreak: `i` is the current day offset back from
today, `fuel` the remaining iterations of the bounded `for (i = 0; i < 365)`
loop. A hit at day `today - i` counts 1 and continues; a miss at `i = 0`
continues without counting (grace for an unlogged today); a miss at `i > 0`
stops. -/
def streakGo (allDates : List Int) (today : Int) : Nat → Nat → Nat
  | _, 0 => 0
  | i, fuel + 1 =>
    if allDates.contains (today - (i : Int)) then streakGo allDates today (i + 1) fuel + 1
    else if i = 0 then streakGo allDates today (i + 1) fuel
    else 0

/-- calculateStreak from the storage module, over the dates (as day offsets)
that carry a legacy workout or nutrition entry. The JS builds a Set union of
the two date collections; membership in that Set coincides with membership in
the concatenated list. The source returns 0 outright when the set is empty
and otherwise runs the 365-iteration backward walk from today. -/
def calculateStreak (workoutDates nutritionDates : List Int) (today : Int) : Nat :=
  let allDates := workoutDates ++ nutritionDates
  if allDates.isEmpty then 0
  else streakGo allDates today 0 365

/-! ## Protein calculations (calculations module) -/

/-- JS `Math.round`: round half toward positive infinity. -/
def jsRound (x : ℚ) : Int := ⌊x + 1 / 2⌋

/-- `Partial<NutritionEntry>` as consumed by calculateProtein: each
food-quantity field may be absent, and `(entry.f || 0)` substitutes 0. -/
structure PartialNutritionEntry where
  eggs : Option ℚ
  chickenGrams : Option ℚ
  paneerGrams : Option ℚ
  soyaGrams : Option ℚ
  wheyScoops : Option ℚ

/-- calculateProtein from the calculations module. -/
def calculateProtein (entry : PartialNutritionEntry) : Int :=
  let eggs := (entry.eggs.getD 0) * PROTEIN_VALUES.egg
  let chicken := ((entry.chickenGrams.getD 0) / 100) * PROTEIN_VALUES.chicken
  let paneer := ((entry.paneerGrams.getD 0) / 100) * PROTEIN_VALUES.paneer
  let soya := ((entry.soyaGrams.getD 0) / 100) * PROTEIN_VALUES.soya
  let whey := (entry.wheyScoops.getD 0) * PROTEIN_VALUES.whey
  jsRound (eggs + chicken + paneer + soya + whey)

/-- calculateProteinPercentage from the calculations module. -/
def calculateProteinPercentage (consumed target : ℚ) : Int :=
  if target ≤ 0 then 0 else min (jsRound (consumed / target * 100)) 100

/-! ## Load operations (storage module)

`localStorage.getItem` is modelled as an `Option String` (a read failure that
throws lands in the same catch-all default as an absent key), `JSON.parse` as
an explicit `parse` function whose `Except.error` outcome models a thrown
parse exception caught by the try/catch. The JS falsiness test `if (data)`
additionally sends the empty string to the default. -/

/-- getAppData from the storage module. -/
def getAppData (stored : Option String) (parse : String → Except String AppData) : AppData :=
  match stored with
  | some s =>
    if s.isEmpty then
      { workouts := [], nutrition := [], weights := [],
        nutritionSettings := DEFAULT_NUTRITION_SETTINGS }
    else
      match parse s with
      | Except.ok d => d
      | Except.error _ =>
        { workouts := [], nutrition := [], weights := [],
          nutritionSettings := DEFAULT_NUTRITION_SETTINGS }
  | none =>
    { workouts := [], nutrition := [], weights := [],
      nutritionSettings := DEFAULT_NUTRITION_SETTINGS }

/-- getWorkoutLogs from the storage module. -/
def getWorkoutLogs (stored : Option String)
    (parse : String → Except String (List WorkoutLog)) : List WorkoutLog :=
  match stored with
  | some s =>
    if s.isEmpty then []
    else
      match parse s with
      | Except.ok d => d
      | Except.error _ => []
  | none => []

/-- getMealLogs from the storage module. -/
def getMealLogs (stored : Option String)
    (parse : String → Except String (List MealLogEntry)) : List MealLogEntry :=
  match stored with
  | some s =>
    if s.isEmpty then []
    else
      match parse s with
      | Except.ok d => d
      | Except.error _ => []
  | none => []

/-- getNutritionTargets from the storage module. -/
def getNutritionTargets (stored : Option String)
    (parse : String → Except String NutritionTargets) : NutritionTargets :=
  match stored with
  | some s =>
    if s.isEmpty then DEFAULT_NUTRITION_TARGETS
    else
      match parse s with
      | Except.ok d => d
      | Except.error _ => DEFAULT_NUTRITION_TARGETS
  | none => DEFAULT_NUTRITION_TARGETS

/-! ## Concrete sample records used by witnesses and counterexamples -/

/-- A meal-log record with id "dup" (breakfast snapshot). -/
def mealA : MealLogEntry :=
  { id := "dup", date := "2024-01-01", templateId := "breakfast-egg-protocol",
    templateName := "Egg Protocol", category := .Breakfast,
    macros := { protein := 42, carbs := 20, fat := 25, fiber := 8, calories := 480 },
    loggedAt := "t1" }

/-- A second, distinct meal-log record that shares the id "dup". -/
def mealB : MealLogEntry :=
  { id := "dup", date := "2024-01-01", templateId := "lunch-chicken-bowl",
    templateName := "Chicken Bowl", category := .Lunch,
    macros := { protein := 55, carbs := 75, fat := 12, fiber := 8, calories := 650 },
    loggedAt := "t2" }

/-- A sample template-based workout log. -/
def wlA : WorkoutLog :=
  { id := "w1", date := "2024-01-02", type := .Pull, exercises := [], createdAt := "c1" }

/-! ## Theorems: rotation schedule -/

/-- Lower bound for the JS truncated remainder by 7. -/
theorem tmod_seven_lower_bound (x : Int) : -7 < x.tmod 7 := by
  rcases le_or_lt 0 x with h | h
  · have := Int.tmod_nonneg 7 h
    omega
  · have hneg : x.tmod 7 = -((-x).tmod 7) := by
      rw [Int.tmod_def, Int.tmod_def, Int.neg_tdiv]
      ring
    have h2 := Int.tmod_lt_of_pos (-x) (b := 7) (by norm_num)
    omega

/-- The non-negative-modulo idiom `((x % 7) + 7) % 7` of the source, with `%`
the JS truncated remainder, equals the euclidean remainder. -/
theorem rotationIndex_eq_emod (x : Int) : ((x.tmod 7) + 7).tmod 7 = x % 7 := by
  have hlow := tmod_seven_lower_bound x
  have h1 : (0 : Int) ≤ x.tmod 7 + 7 := by omega
  obtain ⟨q, hq⟩ : ∃ q, x.tmod 7 = x - 7 * q := ⟨x.tdiv 7, Int.tmod_def x 7⟩
  rw [Int.tmod_eq_emod h1 (by norm_num), hq]
  omega

/-- The returned rotation value depends only on the calendar day, through the
euclidean remainder of the day offset by 7. -/
theorem getWorkoutTypeForDate_fst (d : JSDate) :
    (getWorkoutTypeForDate d).1 = WORKOUT_ROTATION[(d.day % 7).toNat]? := by
  simp only [getWorkoutTypeForDate, JSDate.setHoursZero, JSDate.getTime, referenceDate,
    msPerDay]
  norm_num
  rw [rotationIndex_eq_emod]

/-- C1: the claim states the rotation table is the 7-element
[Push, Pull, Legs, Push, Pull, Legs, Rest] and that 2024-01-07 (day offset 6)
maps to Rest. The code instead indexes the 4-element WORKOUT_ROTATION with
the mod-7 index: day offset 3 (2024-01-04) yields Rest where the claimed
table has Push, and day offset 6 (2024-01-07) yields undefined (none) where
the claim says Rest. The two endpoint examples 2024-01-01 = Push and
2024-01-08 = Push do hold. -/
theorem C1_rotation_table_divergence :
    (getWorkoutTypeForDate { day := 3, hours := 0, minutes := 0, seconds := 0, ms := 0 }).1
        = some WorkoutType.Rest ∧
    (getWorkoutTypeForDate { day := 6, hours := 0, minutes := 0, seconds := 0, ms := 0 }).1
        = none ∧
    (getWorkoutTypeForDate { day := 0, hours := 0, minutes := 0, seconds := 0, ms := 0 }).1
        = some WorkoutType.Push ∧
    (getWorkoutTypeForDate { day := 7, hours := 0, minutes := 0, seconds := 0, ms := 0 }).1
        = some WorkoutType.Push ∧
    WORKOUT_ROTATION ≠ WEEKLY_ROTATION := by
  refine ⟨?_, ?_, ?_, ?_, ?_⟩ <;> decide

/-- C2: the claim states the rotation lookup is always in bounds and returns
one of the four workout types. In the code the mod-7 index ranges over 0..6,
but WORKOUT_ROTATION has only 4 elements, so day offsets congruent to 4, 5, 6
mod 7 return undefined (none): 2024-01-05 (day offset 4) is a concrete
failing date. -/
theorem C2_rotation_lookup_out_of_bounds :
    (getWorkoutTypeForDate { day := 4, hours := 0, minutes := 0, seconds := 0, ms := 0 }).1
        = none ∧
    (getWorkoutTypeForDate { day := 5, hours := 0, minutes := 0, seconds := 0, ms := 0 }).1
        = none ∧
    (getWorkoutTypeForDate { day := 6, hours := 0, minutes := 0, seconds := 0, ms := 0 }).1
        = none := by
  refine ⟨?_, ?_, ?_⟩ <;> decide

/-- C3: getWorkoutTypeForDate is 7-day periodic: the value returned for any
date equals the value returned for the date 7 calendar days later (this holds
for the undefined results as well, so periodicity is unaffected by the table
bug). -/
theorem C3_rotation_seven_day_periodic (d : JSDate) :
    (getWorkoutTypeForDate (d.addDays 7)).1 = (getWorkoutTypeForDate d).1 := by
  rw [getWorkoutTypeForDate_fst, getWorkoutTypeForDate_fst]
  have : (d.addDays 7).day % 7 = d.day % 7 := by
    simp only [JSDate.addDays]
    omega
  rw [this]

/-- C10: getWorkoutTypeForDate mutates its Date argument: after the call the
caller's Date has hours, minutes, seconds and milliseconds zeroed while the
calendar day is unchanged. -/
theorem C10_date_argument_mutation (d : JSDate) :
    (getWorkoutTypeForDate d).2.day = d.day ∧
    (getWorkoutTypeForDate d).2.hours = 0 ∧
    (getWorkoutTypeForDate d).2.minutes = 0 ∧
    (getWorkoutTypeForDate d).2.seconds = 0 ∧
    (getWorkoutTypeForDate d).2.ms = 0 :=
  ⟨rfl, rfl, rfl, rfl, rfl⟩

/-! ## Theorems: workout-log upsert -/

/-- The findIndex-and-set formulation of the source equals the recursive
upsert. -/
theorem saveWorkoutLog_eq_upsert (logs : List WorkoutLog) (log : WorkoutLog) :
    saveWorkoutLog logs log = upsertByDateType logs log := by
  induction logs with
  | nil => rfl
  | cons l ls ih =>
    by_cases h : l.date = log.date ∧ l.type = log.type
    · have hb : (decide (l.date = log.date) && decide (l.type = log.type)) = true := by
        simp [h.1, h.2]
      simp [saveWorkoutLog, upsertByDateType, List.findIdx?_cons, hb, h, List.set]
    · have hb : (decide (l.date = log.date) && decide (l.type = log.type)) = false := by
        rcases not_and_or.mp h with h1 | h1 <;> simp [h1]
      simp only [saveWorkoutLog, List.findIdx?_cons, hb, Bool.false_eq_true, if_false,
        upsertByDateType, if_neg h]
      rw [← ih]
      cases hf : ls.findIdx? (fun l => decide (l.date = log.date) && decide (l.type = log.type)) with
      | none => simp [saveWorkoutLog, hf]
      | some i => simp [saveWorkoutLog, hf, List.set]

/-- keyCount distributes over cons. -/
theorem keyCount_cons (l : WorkoutLog) (ls : List WorkoutLog) (d : String) (ty : WorkoutType) :
    keyCount (l :: ls) d ty
      = (if l.date = d ∧ l.type = ty then 1 else 0) + keyCount ls d ty := by
  by_cases h : l.date = d ∧ l.type = ty <;>
    simp [keyCount, List.filter_cons, h, Nat.add_comm]

/-- After the recursive upsert, the saved key occurs exactly once, provided it
occurred at most once before. -/
theorem upsert_keyCount_eq_one (logs : List WorkoutLog) (log : WorkoutLog)
    (h : keyCount logs log.date log.type ≤ 1) :
    keyCount (upsertByDateType logs log) log.date log.type = 1 := by
  induction logs with
  | nil =>
    simp [upsertByDateType, keyCount_cons, keyCount]
  | cons l ls ih =>
    rw [keyCount_cons] at h
    by_cases hm : l.date = log.date ∧ l.type = log.type
    · rw [if_pos hm] at h
      simp only [upsertByDateType, if_pos hm]
      rw [keyCount_cons, if_pos ⟨rfl, rfl⟩]
      omega
    · rw [if_neg hm] at h
      simp only [upsertByDateType, if_neg hm]
      rw [keyCount_cons, if_neg hm]
      have := ih (by omega)
      omega

/-- C4: saveWorkoutLog is an upsert keyed on (date, type): starting from a
list with at most one record per key, it replaces in place when the key is
already present (the new log wins), appends when the key is fresh, and in
either case leaves exactly one record for the saved key. -/
theorem C4_saveWorkoutLog_upsert (logs : List WorkoutLog) (log : WorkoutLog)
    (huniq : ∀ d ty, keyCount logs d ty ≤ 1) :
    keyCount (saveWorkoutLog logs log) log.date log.type = 1 ∧
    (logs.findIdx? (fun l => decide (l.date = log.date) && decide (l.type = log.type)) = none →
      saveWorkoutLog logs log = logs ++ [log]) ∧
    ∀ i, logs.findIdx? (fun l => decide (l.date = log.date) && decide (l.type = log.type)) = some i →
      saveWorkoutLog logs log = logs.set i log := by
  refine ⟨?_, ?_, ?_⟩
  · rw [saveWorkoutLog_eq_upsert]
    exact upsert_keyCount_eq_one logs log (huniq log.date log.type)
  · intro h
    simp [saveWorkoutLog, h]
  · intro i h
    simp [saveWorkoutLog, h]

/-- Witness for C4 at the empty store and a concrete log. -/
theorem C4_saveWorkoutLog_upsert_witness :
    keyCount (saveWorkoutLog [] wlA) wlA.date wlA.type = 1 :=
  (C4_saveWorkoutLog_upsert [] wlA (fun _ _ => Nat.zero_le 1)).1

/-! ## Theorems: protein calculations -/

/-- C5: calculateProtein is the rounded weighted sum
eggs*6 + chicken/100*31 + paneer/100*18 + soya/100*52 + whey*24, in
particular 110 on the spec example; calculateProteinPercentage is 0 for a
non-positive target and min(round(consumed/target*100), 100) otherwise, in
particular 61 on the spec example 110 of 180. -/
theorem C5_calculateProtein_correct :
    (∀ e : PartialNutritionEntry,
      calculateProtein e
        = jsRound ((e.eggs.getD 0) * 6 + (e.chickenGrams.getD 0) / 100 * 31
            + (e.paneerGrams.getD 0) / 100 * 18 + (e.soyaGrams.getD 0) / 100 * 52
            + (e.wheyScoops.getD 0) * 24)) ∧
    calculateProtein
        { eggs := some 4, chickenGrams := some 200, paneerGrams := some 0,
          soyaGrams := some 0, wheyScoops := some 1 } = 110 ∧
    (∀ consumed target : ℚ, target ≤ 0 → calculateProteinPercentage consumed target = 0) ∧
    (∀ consumed target : ℚ, 0 < target →
      calculateProteinPercentage consumed target = min (jsRound (consumed / target * 100)) 100) ∧
    calculateProteinPercentage 110 180 = 61 := by
  refine ⟨fun e => rfl, ?_, ?_, ?_, ?_⟩
  · norm_num [calculateProtein, jsRound, PROTEIN_VALUES]
  · intro consumed target h
    simp [calculateProteinPercentage, h]
  · intro consumed target h
    rw [calculateProteinPercentage, if_neg (not_le.mpr h)]
  · norm_num [calculateProteinPercentage, jsRound]

/-- Witness for the conditional parts of C5 at concrete inputs. -/
theorem C5_calculateProtein_correct_witness :
    calculateProteinPercentage 50 0 = 0 ∧
    calculateProteinPercentage 110 180 = min (jsRound ((110 : ℚ) / 180 * 100)) 100 :=
  ⟨C5_calculateProtein_correct.2.2.1 50 0 (le_refl 0),
   C5_calculateProtein_correct.2.2.2.1 110 180 (by decide)⟩

/-! ## Theorems: streak calculation -/

/-- The streak loop counts at most one day per remaining iteration. -/
theorem streakGo_le_fuel (dates : List Int) (today : Int) :
    ∀ fuel i, streakGo dates today i fuel ≤ fuel := by
  intro fuel
  induction fuel with
  | zero => intro i; simp [streakGo]
  | succ f ih =>
    intro i
    simp only [streakGo]
    split
    · have := ih (i + 1); omega
    · split
      · have := ih (i + 1); omega
      · omega

/-- Once past day 0, the streak loop started at offset i stops no later than
the first absent day k, contributing at most k - i. -/
theorem streakGo_stops_at_gap (dates : List Int) (today : Int) (k : Nat)
    (habs : ¬ dates.contains (today - (k : Int))) :
    ∀ fuel i, 1 ≤ i → i ≤ k → streakGo dates today i fuel ≤ k - i := by
  intro fuel
  induction fuel with
  | zero => intro i _ _; simp [streakGo]
  | succ f ih =>
    intro i h1 h2
    simp only [streakGo]
    by_cases hc : dates.contains (today - (i : Int))
    · rw [if_pos hc]
      have hik : i ≠ k := by
        rintro rfl
        exact habs hc
      have := ih (i + 1) (by omega) (by omega)
      omega
    · rw [if_neg hc, if_neg (by omega : ¬ i = 0)]
      omega

/-- One unfolding of the bounded loop at its entry point i = 0. -/
theorem streakGo_zero_unfold (dates : List Int) (today : Int) :
    streakGo dates today 0 365
      = if dates.contains today then streakGo dates today 1 364 + 1
        else streakGo dates today 1 364 := by
  have h : streakGo dates today 0 365
      = if dates.contains (today - ((0 : Nat) : Int)) then streakGo dates today 1 364 + 1
        else if (0 : Nat) = 0 then streakGo dates today 1 364 else 0 := rfl
  rw [h]
  norm_num

/-- C6: calculateStreak never exceeds 365; it is at most k whenever the day k
steps before today (k ≥ 1) is unlogged (the first gap strictly before today
stops the count); an unlogged today only forfeits today's own increment, not
the walk over earlier days (grace for day 0); and on the logged set
{today, today-1, today-2} it returns 3. -/
theorem C6_calculateStreak_behavior :
    (∀ w n t, calculateStreak w n t ≤ 365) ∧
    (∀ w n t (k : Nat), 1 ≤ k → ¬ (w ++ n).contains (t - (k : Int)) →
      calculateStreak w n t ≤ k) ∧
    (∀ w n t, calculateStreak w n t
        = (if (w ++ n).contains t then 1 else 0) + streakGo (w ++ n) t 1 364) ∧
    calculateStreak [0, -1, -2] [] 0 = 3 := by
  refine ⟨?_, ?_, ?_, by decide⟩
  · intro w n t
    rw [calculateStreak]
    split
    · omega
    · exact streakGo_le_fuel (w ++ n) t 365 0
  · intro w n t k hk habs
    rw [calculateStreak]
    split
    · omega
    · rw [streakGo_zero_unfold]
      have hstop := streakGo_stops_at_gap (w ++ n) t k habs 364 1 (le_refl 1) hk
      split
      · omega
      · omega
  · intro w n t
    rw [calculateStreak]
    split
    · rename_i he
      have hnil : w ++ n = [] := by
        cases hwn : w ++ n with
        | nil => rfl
        | cons a as => rw [hwn] at he; simp [List.isEmpty] at he
      rw [hnil]
      have h364 : streakGo ([] : List Int) t 1 364 = 0 := rfl
      simp [h364, List.contains]
    · rw [streakGo_zero_unfold]
      split
      · omega
      · omega

/-- Witness for the conditional part of C6 at a concrete store. -/
theorem C6_calculateStreak_behavior_witness :
    calculateStreak [0] [] 0 ≤ 1 :=
  C6_calculateStreak_behavior.2.1 [0] [] 0 1 (le_refl 1) (by decide)

/-! ## Theorems: macro totals -/

/-- C7: calculateTotalMacros of the empty log list is the all-zero Macros
record, and the total is invariant under permutation of the log list (the
per-field additions commute). -/
theorem C7_calculateTotalMacros_perm :
    calculateTotalMacros []
      = { protein := 0, carbs := 0, fat := 0, fiber := 0, calories := 0 } ∧
    ∀ l1 l2 : List MealLogEntry, l1.Perm l2 →
      calculateTotalMacros l1 = calculateTotalMacros l2 := by
  refine ⟨rfl, ?_⟩
  intro l1 l2 hp
  refine hp.foldl_eq' (fun x _ y _ z => ?_) _
  simp only [Macros.mk.injEq]
  refine ⟨?_, ?_, ?_, ?_, ?_⟩ <;> ring

/-- Witness for C7 on a concrete two-element permutation. -/
theorem C7_calculateTotalMacros_perm_witness :
    calculateTotalMacros [mealA, mealB] = calculateTotalMacros [mealB, mealA] :=
  C7_calculateTotalMacros_perm.2 [mealA, mealB] [mealB, mealA]
    (List.Perm.swap mealB mealA [])

/-! ## Theorems: meal-log deletion -/

/-- C8 counterexample: with two stored entries sharing the id "dup",
deleteMealLog removes both, whereas the claimed behaviour (remove exactly the
first match, keep every other entry) would keep the second one. -/
theorem C8_deleteMealLog_counterexample :
    deleteMealLog [mealA, mealB] "dup" = [] ∧
    deleteFirstById [mealA, mealB] "dup" = [mealB] ∧
    ([] : List MealLogEntry) ≠ [mealB] := by
  refine ⟨rfl, rfl, by simp⟩

/-- A list none of whose entries match the id is kept whole by the filter. -/
theorem filter_ne_id_of_no_match (logs : List MealLogEntry) (logId : String)
    (h : (logs.filter (fun l => l.id == logId)).length = 0) :
    logs.filter (fun l => l.id != logId) = logs := by
  induction logs with
  | nil => rfl
  | cons l ls ih =>
    by_cases hl : l.id = logId
    · rw [List.filter_cons, if_pos (by simp [hl])] at h
      simp at h
    · rw [List.filter_cons, if_pos (by simp [hl])]
      rw [List.filter_cons, if_neg (by simp [hl])] at h
      rw [ih h]

/-- C8 amended: deleteMealLog removes every record whose id matches (not just
the first) and persists the rest: the result is a sublist of the store (order
and field values preserved), contains exactly the entries whose id differs,
and coincides with the remove-first-match reading of the spec whenever at
most one stored record bears the id. -/
theorem C8_deleteMealLog_amended (logs : List MealLogEntry) (logId : String) :
    (deleteMealLog logs logId).Sublist logs ∧
    (∀ e ∈ logs, e.id ≠ logId → e ∈ deleteMealLog logs logId) ∧
    (∀ e ∈ deleteMealLog logs logId, e.id ≠ logId ∧ e ∈ logs) ∧
    ((logs.filter (fun l => l.id == logId)).length ≤ 1 →
      deleteMealLog logs logId = deleteFirstById logs logId) := by
  refine ⟨List.filter_sublist logs, ?_, ?_, ?_⟩
  · intro e he hne
    simp [deleteMealLog, List.mem_filter, he, hne]
  · intro e he
    rw [deleteMealLog, List.mem_filter] at he
    refine ⟨by simpa using he.2, he.1⟩
  · intro hcount
    induction logs with
    | nil => rfl
    | cons l ls ih =>
      by_cases hl : l.id = logId
      · rw [List.filter_cons, if_pos (by simp [hl])] at hcount
        simp only [List.length_cons] at hcount
        rw [deleteMealLog, List.filter_cons, if_neg (by simp [hl])]
        rw [deleteFirstById, if_pos hl]
        exact filter_ne_id_of_no_match ls logId (by omega)
      · rw [List.filter_cons, if_neg (by simp [hl])] at hcount
        rw [deleteMealLog, List.filter_cons, if_pos (by simp [hl])]
        rw [deleteFirstById, if_neg hl]
        rw [← deleteMealLog]
        rw [ih hcount]

/-- Witness for the conditional part of C8 amended: on a store whose single
entry does not carry the deleted id, the filter and the remove-first-match
reading agree. -/
theorem C8_deleteMealLog_amended_witness :
    deleteMealLog [mealA] "zzz" = deleteFirstById [mealA] "zzz" :=
  (C8_deleteMealLog_amended [mealA] "zzz").2.2.2 (by decide)

/-! ## Theorems: load defaults -/

/-- C9: each load operation returns its documented default on an absent
stored value and on a stored value whose parse fails, and (being a total
function into the plain document type) never surfaces an error:
getAppData yields the empty collections with default nutrition settings,
getWorkoutLogs and getMealLogs yield the empty list, and getNutritionTargets
yields the default targets {protein 180, calories 2300}. -/
theorem C9_load_defaults :
    (∀ parse, getAppData none parse
        = { workouts := [], nutrition := [], weights := [],
            nutritionSettings := DEFAULT_NUTRITION_SETTINGS }) ∧
    (∀ parse s e, parse s = Except.error e → getAppData (some s) parse
        = { workouts := [], nutrition := [], weights := [],
            nutritionSettings := DEFAULT_NUTRITION_SETTINGS }) ∧
    (∀ parse, getWorkoutLogs none parse = []) ∧
    (∀ parse s e, parse s = Except.error e → getWorkoutLogs (some s) parse = []) ∧
    (∀ parse, getMealLogs none parse = []) ∧
    (∀ parse s e, parse s = Except.error e → getMealLogs (some s) parse = []) ∧
    (∀ parse, getNutritionTargets none parse = DEFAULT_NUTRITION_TARGETS) ∧
    (∀ parse s e, parse s = Except.error e →
      getNutritionTargets (some s) parse = DEFAULT_NUTRITION_TARGETS) ∧
    DEFAULT_NUTRITION_TARGETS = { protein := 180, calories := 2300 } := by
  refine ⟨fun parse => rfl, ?_, fun parse => rfl, ?_, fun parse => rfl, ?_,
    fun parse => rfl, ?_, rfl⟩ <;>
    · intro parse s e h
      by_cases hs : s.isEmpty <;>
        simp [getAppData, getWorkoutLogs, getMealLogs, getNutritionTargets, hs, h]

/-- Witness for the parse-failure parts of C9 at a concrete failing parse. -/
theorem C9_load_defaults_witness :
    getAppData (some "x") (fun _ => Except.error "bad")
      = { workouts := [], nutrition := [], weights := [],
          nutritionSettings := DEFAULT_NUTRITION_SETTINGS } :=
  C9_load_defaults.2.1 (fun _ => Except.error "bad") "x" "bad" rfl

end Protocol
